import Mathlib

/-!
Verification of the grid-world simulation (gridworld.py, gridagents.py).

The embedding models:
- `GridCell` : the `GridPoint` class.  Object references are modelled as
  identifiers: occupants are `Nat` object ids (Python compares occupants by
  object identity), the parent `GridWorld` is a `Nat` world id, and neighbour
  references are `(row, col)` grid indices.
- cell operations `occupied`, `addNeighbour`, `placeOccupant`,
  `removeOccupant`, `occupy`, and the grid-level `gridVacate` (the `vacate`
  method mutates both the cell and its neighbour, so it is modelled as an
  update of the whole grid state).
- `builtNeighbours` / `buildGrid` : the adjacency construction in
  `GridWorld.__init__`.
- `GridAgentState`, `ActionM`, `applyAction`, `actionResult`, `chooseAction` :
  the agent/action model from gridagents.py and `GridWorld._applyAction`.
-/

/-- Model of the `GridPoint` class (gridworld.py).  `parent` is the id of the
owning `GridWorld`; `occupants` holds occupant object ids; `neighbours` is the
adjacency list `[N, E, S, W]` holding `(row, col)` references (Python stores
direct object references; grid indices model object identity).  The `label`
attribute is carried for completeness. -/
structure GridCell where
  x : Int
  y : Int
  label : Option String
  maxOccupants : Nat
  occupants : List Nat
  parent : Nat
  neighbours : List (Option (Nat × Nat))
  deriving DecidableEq, Repr

/-- A default cell, used only as the out-of-range fallback of list lookups. -/
def defaultCell : GridCell :=
  { x := 0, y := 0, label := none, maxOccupants := 1, occupants := [],
    parent := 0, neighbours := [none, none, none, none] }

/-- The `occupied` property: `len(self._occupants) >= self._maxOccupants`. -/
def GridCell.occupied (p : GridCell) : Bool :=
  p.maxOccupants ≤ p.occupants.length

/-- Failure modes of `GridPoint.addNeighbour`: the explicit `IndexError` for a
direction outside 0..3, the explicit `ValueError` for a corrupted neighbour
list, and the implicit `IndexError` Python raises when assigning past the end
of the list. -/
inductive NeighbourError where
  | invalidDirection
  | corruptTopology
  | listIndexOutOfRange
  deriving DecidableEq, Repr

/-- `GridPoint.addNeighbour(neighbour, direction)`: raises for a direction
outside 0..3; raises "invalid or corrupted neighbour list" when
`len(self._neighbours) < 3`; otherwise assigns slot `direction` (a Python
list assignment, which itself raises when the index is past the end). -/
def addNeighbour (neighbours : List (Option (Nat × Nat)))
    (neighbour : Option (Nat × Nat)) (direction : Int) :
    Except NeighbourError (List (Option (Nat × Nat))) :=
  if 3 < direction ∨ direction < 0 then .error .invalidDirection
  else if neighbours.length < 3 then .error .corruptTopology
  else if direction.toNat < neighbours.length then
    .ok (neighbours.set direction.toNat neighbour)
  else .error .listIndexOutOfRange

/-- `GridPoint.placeOccupant(parent, occupant)`: fails when the requester is
not the parent world or the cell is occupied; otherwise appends. -/
def GridCell.placeOccupant (p : GridCell) (parent : Nat) (occ : Nat) :
    GridCell × Bool :=
  if parent ≠ p.parent ∨ p.occupied then (p, false)
  else ({ p with occupants := p.occupants ++ [occ] }, true)

/-- `GridPoint.removeOccupant(parent, occupant)`: returns `None` when the
requester is not the parent world or the occupant is absent, else returns the
occupant.  Note the source never deletes the occupant from the list. -/
def GridCell.removeOccupant (p : GridCell) (parent : Nat) (occ : Nat) :
    GridCell × Option Nat :=
  if parent ≠ p.parent ∨ occ ∉ p.occupants then (p, none)
  else (p, some occ)

/-- `GridPoint.occupy(occupant, origin)`: fails (returns `None`) when the
origin is not adjacent (`abs(origin[0]-self.x) > 1 or abs(origin[1]-self.y) > 1`)
or when `len(self._occupants) > self._maxOccupants`; otherwise appends the
occupant and returns the updated cell (`self`). -/
def GridCell.occupy (p : GridCell) (occ : Nat) (origin : Int × Int) :
    Option GridCell :=
  if 1 < (origin.1 - p.x).natAbs ∨ 1 < (origin.2 - p.y).natAbs then none
  else if p.maxOccupants < p.occupants.length then none
  else some { p with occupants := p.occupants ++ [occ] }

/-- `canGo(direction)` given the neighbour cell referenced at that direction:
false when the neighbour is absent or occupied. -/
def canGo (neighbour : Option GridCell) : Bool :=
  match neighbour with
  | none => false
  | some n => ¬n.occupied

/-- The grid of a `GridWorld`: `_grid[row][col]`. -/
def cellAt (g : List (List GridCell)) (row col : Nat) : GridCell :=
  (g.getD row []).getD col defaultCell

/-- Writing one cell of the grid in place (the effect of mutating the Python
object referenced at `_grid[row][col]`). -/
def setCell (g : List (List GridCell)) (row col : Nat) (c : GridCell) :
    List (List GridCell) :=
  g.set row ((g.getD row []).set col c)

/-- `GridPoint.vacate(occupant, direction)`, lifted to the grid state because
it mutates both the cell at `(row, col)` and the neighbour it moves into.
Returns the updated grid and the returned value: `none` models Python `None`,
`some (r, c)` models returning the cell object at grid index `(r, c)`.
Mirrors the source: missing occupant returns `None` unchanged; no direction
removes the occupant and returns `None`; an absent or occupied neighbour
returns `self`; otherwise the occupant is removed and the neighbour's
`occupy` is called with origin `(self.x, self.y)`. -/
def gridVacate (g : List (List GridCell)) (row col : Nat) (occ : Nat)
    (direction : Option (Fin 4)) : List (List GridCell) × Option (Nat × Nat) :=
  let p := cellAt g row col
  if occ ∉ p.occupants then (g, none)
  else
    match direction with
    | none => (setCell g row col { p with occupants := p.occupants.erase occ }, none)
    | some d =>
      match p.neighbours.getD d.val none with
      | none => (g, some (row, col))
      | some (r, c) =>
        let n := cellAt g r c
        if n.occupied then (g, some (row, col))
        else
          let g1 := setCell g row col { p with occupants := p.occupants.erase occ }
          match n.occupy occ (p.x, p.y) with
          | none => (g1, some (row, col))
          | some n1 => (setCell g1 r c n1, some (r, c))

/-- The neighbour list the adjacency loop of `GridWorld.__init__` leaves on
the cell at `(row, col)` of an `h`-row, `w`-column grid whose capacities come
from `points` (keyed by `(x, y) = (col, row)` as in the source).  Starting
from the constructor's `[None, None, None, None]`, each of the four guarded
`addNeighbour` calls assigns one slot: north (0) when `row > 0`, east (1)
when `col < w - 1`, south (2) when `row < h - 1`, west (3) when `col > 0`,
in each case only when the target cell's capacity is positive. -/
def builtNeighbours (h w : Nat) (points : Nat × Nat → Nat) (row col : Nat) :
    List (Option (Nat × Nat)) :=
  let n0 : List (Option (Nat × Nat)) := [none, none, none, none]
  let n1 := if 0 < row ∧ 0 < points (col, row - 1) then
    n0.set 0 (some (row - 1, col)) else n0
  let n2 := if col < w - 1 ∧ 0 < points (col + 1, row) then
    n1.set 1 (some (row, col + 1)) else n1
  let n3 := if row < h - 1 ∧ 0 < points (col, row + 1) then
    n2.set 2 (some (row + 1, col)) else n2
  if 0 < col ∧ 0 < points (col - 1, row) then
    n3.set 3 (some (row, col - 1)) else n3

/-- The grid `GridWorld.__init__(h, w, points=points)` builds: the cell at
`_grid[row][col]` has coordinates `x = col, y = row`, capacity
`points[(col, row)]`, an empty occupant list (the constructor's `occupants`
argument is accepted but never used by `GridPoint.__init__`), and the
adjacency loop's neighbour list.  The owning world is modelled as parent
id 0. -/
def buildGrid (h w : Nat) (points : Nat × Nat → Nat) : List (List GridCell) :=
  (List.range h).map fun (row : Nat) => (List.range w).map fun (col : Nat) =>
    { x := (col : Int), y := (row : Int), label := none,
      maxOccupants := points (col, row), occupants := [], parent := 0,
      neighbours := builtNeighbours h w points row col }

/-- The direction opposite to `d`: north and south swap, east and west swap. -/
def oppositeDirection (d : Fin 4) : Fin 4 :=
  ⟨(d.val + 2) % 4, Nat.mod_lt _ (by decide)⟩

/-- Model of the `Action` class (gridagents.py): the issuing agent (by object
id), the action code (`-1` inaction, `0` move), the direction, the optional
acted-upon object, and the agent's believed position at proposal time.  Every
direction the program constructs lies in 0..3, modelled as `Fin 4`. -/
structure ActionM where
  agent : Nat
  actionCode : Int
  actionDirection : Fin 4
  actedUpon : Option Nat
  x : Int
  y : Int
  deriving DecidableEq, Repr

/-- Model of a `GridAgent` (gridagents.py), including the `GridObject` base
fields.  Worlds are referenced by id; `world = none` models `_world is None`.
`currentAction` is the `_currentAction` attribute. -/
structure GridAgentState where
  objectName : String
  objectID : Nat
  world : Option Nat
  static : Bool
  x : Int
  y : Int
  currentAction : ActionM
  deriving DecidableEq, Repr

/-- The attribute names `GridObject.__setattr__` refuses to assign. -/
def gridObjectGuardedNames : List String :=
  ["_objectName", "_objectID", "_world", "_static"]

/-- `GridObject.__setattr__` on the `_world` attribute: the assignment is
dropped because the name is in the guarded list. -/
def GridAgentState.setattrWorld (a : GridAgentState) (v : Option Nat) :
    GridAgentState :=
  if "_world" ∈ gridObjectGuardedNames then a else { a with world := v }

/-- `GridObject.__setattr__` on the `x` attribute. -/
def GridAgentState.setattrX (a : GridAgentState) (v : Int) : GridAgentState :=
  if "x" ∈ gridObjectGuardedNames then a else { a with x := v }

/-- `GridObject.__setattr__` on the `y` attribute. -/
def GridAgentState.setattrY (a : GridAgentState) (v : Int) : GridAgentState :=
  if "y" ∈ gridObjectGuardedNames then a else { a with y := v }

/-- `GridObject.embed(world)`: the source assigns `self._world = world`, which
goes through `__setattr__`. -/
def GridAgentState.embed (a : GridAgentState) (world : Nat) : GridAgentState :=
  a.setattrWorld (some world)

/-- `GridObject.place(world, x, y)`: assigns `_world` (through `__setattr__`)
when it is `None`, then sets the position if the stored world matches. -/
def GridAgentState.place (a : GridAgentState) (world : Nat) (x y : Int) :
    GridAgentState :=
  let a1 := if a.world = none then a.setattrWorld (some world) else a
  if a1.world = some world then (a1.setattrX x).setattrY y else a1

/-- `GridAgent.chooseAction(world, x, y, occupants)`: a foreign world forces
the inaction `Action(self, -1, None, 0)`; otherwise the default policy
proposes a move in a uniformly random direction, modelled by the oracle
argument `rnd`.  The `_currentAction` update goes through
`GridObject.__setattr__` directly, which permits it. -/
def GridAgentState.chooseAction (a : GridAgentState) (world : Nat) (x y : Int)
    (occupants : List Nat) (rnd : Fin 4) : GridAgentState × ActionM :=
  if (some world : Option Nat) ≠ a.world then
    let act : ActionM :=
      { agent := a.objectID, actionCode := -1, actionDirection := 0,
        actedUpon := none, x := a.x, y := a.y }
    ({ a with currentAction := act }, act)
  else
    let act : ActionM :=
      { agent := a.objectID, actionCode := 0, actionDirection := rnd,
        actedUpon := none, x := a.x, y := a.y }
    ({ a with currentAction := act }, act)

/-- `GridAgent.actionResult(result)`: for a pending move action the result
must be a `GridPoint` (a `none` result models Python `None`, whose class is
not `GridPoint`, so the source raises `ValueError`, modelled by returning
`none`); the believed position is updated from the observation. -/
def GridAgentState.actionResult (a : GridAgentState) (result : Option GridCell) :
    Option GridAgentState :=
  if 0 ≤ a.currentAction.actionCode then
    if a.currentAction.actionCode = 0 then
      match result with
      | none => none
      | some c => some ((a.setattrX c.x).setattrY c.y)
    else some a
  else some a

/-- State of a `GridWorld`: the grid plus the `_agents` table, an association
list from an agent's object id to its stored `[x, y]` entry (the third list
component of the source, the agent object itself, is identified by the key).
-/
structure WorldState where
  grid : List (List GridCell)
  agents : List (Nat × Int × Int)

/-- Updating the stored position of agent `aid` in the `_agents` table
(`self._agents[action.agent.objectID][0] = newSquare.x`, and `[1]` for `y`).
-/
def updateAgentPos (agents : List (Nat × Int × Int)) (aid : Nat) (x y : Int) :
    List (Nat × Int × Int) :=
  agents.map fun e => if e.1 = aid then (aid, x, y) else e

/-- `GridWorld._applyAction(action)`.  Action code `-1` returns `None` with no
state change, as does any code other than `0` (the method falls off its end).
A move action offsets the agent's believed position by the action's
direction (the four successive `if` tests of the source, only one of which
can fire), applies the source's bounds check — which compares `destX` with
`len(self._grid)` (the number of rows) and `destY` with `len(self._grid[0])`
(the number of columns) — and on rejection returns the cell at the agent's
position; otherwise it calls `vacate` on that cell and updates the `_agents`
entry from the returned cell's coordinates.  A `None` result from `vacate`
makes the source fault on `newSquare.x` (`AttributeError`), modelled by the
outer `none`. -/
def applyAction (s : WorldState) (a : ActionM) :
    Option (WorldState × Option GridCell) :=
  if a.actionCode = -1 then some (s, none)
  else if a.actionCode = 0 then
    let destX := if a.actionDirection.val = 3 then a.x - 1
      else if a.actionDirection.val = 1 then a.x + 1 else a.x
    let destY := if a.actionDirection.val = 2 then a.y + 1
      else if a.actionDirection.val = 0 then a.y - 1 else a.y
    if destX < 0 ∨ destY < 0 ∨ (s.grid.length : Int) ≤ destX ∨
        ((s.grid.getD 0 []).length : Int) ≤ destY then
      some (s, some (cellAt s.grid a.y.toNat a.x.toNat))
    else
      match gridVacate s.grid a.y.toNat a.x.toNat a.agent
          (some a.actionDirection) with
      | (g2, some (rr, cc)) =>
        let ns := cellAt g2 rr cc
        some ({ grid := g2,
                agents := updateAgentPos s.agents a.agent ns.x ns.y }, some ns)
      | (_, none) => none
  else some (s, none)

/-- The shape facts `GridWorld.__init__(h, w, points)` establishes and the
tick loop preserves: an `h`-row, `w`-column rectangular grid whose cell at
`(row, col)` keeps coordinates `x = col, y = row` and the constructed
neighbour list (occupant lists may have changed since construction). -/
def builtTopology (h w : Nat) (pts : Nat × Nat → Nat)
    (g : List (List GridCell)) : Prop :=
  g.length = h ∧ (∀ rowL ∈ g, rowL.length = w) ∧
  ∀ row, row < h → ∀ col, col < w →
    (cellAt g row col).x = (col : Int) ∧ (cellAt g row col).y = (row : Int) ∧
    (cellAt g row col).neighbours = builtNeighbours h w pts row col

/-- All-capacity-1 layout for the C5 witness. -/
def c5pts : Nat × Nat → Nat := fun _ => 1

/-- A 5×5 all-capacity-1 built grid with agent 7 placed at cell (0,0), used
by the C5 witness. -/
def c5grid : List (List GridCell) :=
  setCell (buildGrid 5 5 c5pts) 0 0
    { cellAt (buildGrid 5 5 c5pts) 0 0 with occupants := [7] }

/-- The agent of the C5 witness: at believed position (0,0), proposing a move
west. -/
def c5agent : GridAgentState :=
  { objectName := "agent", objectID := 7, world := some 0, static := false,
    x := 0, y := 0,
    currentAction := { agent := 7, actionCode := 0, actionDirection := 3,
                       actedUpon := none, x := 0, y := 0 } }

/-- A one-cell grid holding occupant 4, used by the C10 witness. -/
def c10grid : List (List GridCell) :=
  [[{ x := 0, y := 0, label := none, maxOccupants := 1, occupants := [4],
      parent := 0, neighbours := [none, none, none, none] }]]

/-- A 1×2 grid used by the C1 witness: occupant 7 sits in the west cell, the
east cell is free, and the two cells are linked as built by
`GridWorld.__init__`. -/
def c1grid : List (List GridCell) :=
  [[{ x := 0, y := 0, label := none, maxOccupants := 1, occupants := [7],
      parent := 0, neighbours := [none, some (0, 1), none, none] },
    { x := 1, y := 0, label := none, maxOccupants := 1, occupants := [],
      parent := 0, neighbours := [none, none, none, some (0, 0)] }]]

/-- C4: the claim says `occupy` fails when adding the object would exceed the
cell's capacity.  The source guard is `len(self._occupants) > self._maxOccupants`,
so a cell already at capacity (one occupant, capacity 1) still accepts a new
occupant from an adjacent origin, ending with 2 occupants. -/
theorem occupy_accepts_at_capacity :
    GridCell.occupy
      { x := 0, y := 0, label := none, maxOccupants := 1, occupants := [1],
        parent := 0, neighbours := [none, none, none, none] } 2 (1, 0) =
    some
      { x := 0, y := 0, label := none, maxOccupants := 1, occupants := [1, 2],
        parent := 0, neighbours := [none, none, none, none] } := by
  decide

/-- C2: the claim says every occupant-adding operation preserves
`length ≤ capacity`.  `occupy` on a capacity-0 cell (which satisfies the
invariant, with an empty occupant list) appends and returns the cell with one
occupant, violating the invariant. -/
theorem occupy_breaks_capacity_invariant :
    ∃ c : GridCell,
      GridCell.occupy
        { x := 2, y := 2, label := none, maxOccupants := 0, occupants := [],
          parent := 0, neighbours := [none, none, none, none] } 5 (2, 3) =
        some c ∧ c.maxOccupants < c.occupants.length := by
  refine ⟨{ x := 2, y := 2, label := none, maxOccupants := 0, occupants := [5],
            parent := 0, neighbours := [none, none, none, none] }, ?_, ?_⟩ <;> decide

/-- C3: the claim says a successful `removeOccupant` removes the object from
the occupant list and returns it.  The source returns the occupant with a
matching requester but never deletes it from the list: occupant 3 is returned
and is still present afterwards. -/
theorem removeOccupant_leaves_occupant_in_place :
    GridCell.removeOccupant
      { x := 0, y := 0, label := none, maxOccupants := 1, occupants := [3],
        parent := 0, neighbours := [none, none, none, none] } 0 3 =
    ({ x := 0, y := 0, label := none, maxOccupants := 1, occupants := [3],
       parent := 0, neighbours := [none, none, none, none] }, some 3) := by
  decide

/-- C8: the claim says `addNeighbour` fails with `CorruptTopology` whenever
the neighbour array does not have exactly 4 slots.  The source guard is
`len(self._neighbours) < 3`, so a malformed 3-slot array passes the guard and
the neighbour is stored. -/
theorem addNeighbour_accepts_three_slot_list :
    addNeighbour [none, none, none] (some (0, 0)) 0 =
      .ok [some (0, 0), none, none] ∧ ([none, none, none] : List (Option (Nat × Nat))).length ≠ 4 := by
  exact ⟨rfl, by decide⟩

lemma setattrWorld_id (a : GridAgentState) (v : Option Nat) :
    a.setattrWorld v = a :=
  if_pos (by decide)

lemma setattrX_def (a : GridAgentState) (v : Int) :
    a.setattrX v = { a with x := v } :=
  if_neg (by decide)

lemma setattrY_def (a : GridAgentState) (v : Int) :
    a.setattrY v = { a with y := v } :=
  if_neg (by decide)

/-- C9: the world reference of an agent is fixed after construction: neither
`embed` nor `place` ever changes `_world`, because the assignment is routed
through `__setattr__`, which drops writes to the guarded `_world` name.  In
particular re-embedding into a different world never takes effect. -/
theorem embed_place_preserve_world (a : GridAgentState) (w w2 : Nat) (x y : Int) :
    (a.embed w).world = a.world ∧ (a.place w2 x y).world = a.world := by
  refine ⟨?_, ?_⟩
  · rw [GridAgentState.embed, setattrWorld_id]
  · simp only [GridAgentState.place, setattrWorld_id, setattrX_def, setattrY_def]
    split_ifs <;> rfl

/-- C6: an agent asked to choose an action for a world other than the one it
is embedded in returns the inaction (action code `-1`), with no fault. -/
theorem chooseAction_foreign_world (a : GridAgentState) (w : Nat) (x y : Int)
    (occupants : List Nat) (rnd : Fin 4)
    (hw : (some w : Option Nat) ≠ a.world) :
    (a.chooseAction w x y occupants rnd).2.actionCode = -1 := by
  rw [GridAgentState.chooseAction, if_pos hw]

/-- Witness for C6 at a concrete agent embedded in world 0 and queried for
world 1. -/
theorem chooseAction_foreign_world_witness :
    (some 1 : Option Nat) ≠ (some 0 : Option Nat) ∧
    (GridAgentState.chooseAction
      { objectName := "agent", objectID := 5, world := some 0, static := false,
        x := 0, y := 0,
        currentAction := { agent := 5, actionCode := -1, actionDirection := 0,
                           actedUpon := none, x := 0, y := 0 } }
      1 0 0 [] 2).2.actionCode = -1 :=
  ⟨by decide, chooseAction_foreign_world _ 1 0 0 [] 2 (by decide)⟩

lemma length_setCell (g : List (List GridCell)) (row col : Nat) (c : GridCell) :
    (setCell g row col c).length = g.length :=
  List.length_set g row _

lemma getD_set_eq {α : Type} (l : List α) (n : Nat) (a d : α) (h : n < l.length) :
    (l.set n a).getD n d = a := by
  rw [List.getD_eq_getElem?_getD, List.getElem?_set_self h]
  rfl

lemma getD_set_ne_idx {α : Type} (l : List α) (n m : Nat) (a d : α) (h : n ≠ m) :
    (l.set n a).getD m d = l.getD m d := by
  rw [List.getD_eq_getElem?_getD, List.getElem?_set_ne h,
    ← List.getD_eq_getElem?_getD]

lemma getD_set_self_oob {α : Type} (l : List α) (n : Nat) (a d : α)
    (h : l.length ≤ n) :
    (l.set n a).getD n d = l.getD n d := by
  rw [List.getD_eq_getElem?_getD,
    List.getElem?_eq_none (by simpa using h),
    List.getD_eq_getElem?_getD, List.getElem?_eq_none h]

lemma getD_setCell_length (g : List (List GridCell)) (row col r : Nat) (c : GridCell) :
    ((setCell g row col c).getD r []).length = (g.getD r []).length := by
  unfold setCell
  by_cases h : row = r
  · subst h
    by_cases hlt : row < g.length
    · rw [getD_set_eq g row ((g.getD row []).set col c) [] hlt, List.length_set]
    · rw [getD_set_self_oob g row ((g.getD row []).set col c) []
        (Nat.le_of_not_lt hlt)]
  · rw [getD_set_ne_idx g row r ((g.getD row []).set col c) [] h]

lemma cellAt_setCell_same (g : List (List GridCell)) (row col : Nat) (c : GridCell)
    (hrow : row < g.length) (hcol : col < (g.getD row []).length) :
    cellAt (setCell g row col c) row col = c := by
  unfold cellAt setCell
  rw [getD_set_eq g row ((g.getD row []).set col c) [] hrow,
    getD_set_eq (g.getD row []) col c defaultCell hcol]

lemma cellAt_setCell_ne (g : List (List GridCell)) (row col r2 c2 : Nat) (c : GridCell)
    (hne : (r2, c2) ≠ (row, col)) :
    cellAt (setCell g row col c) r2 c2 = cellAt g r2 c2 := by
  unfold cellAt setCell
  by_cases hr : row = r2
  · subst hr
    have hc : col ≠ c2 := by
      intro h
      exact hne (by rw [h])
    by_cases hlt : row < g.length
    · rw [getD_set_eq g row ((g.getD row []).set col c) [] hlt,
        getD_set_ne_idx (g.getD row []) col c2 c defaultCell hc]
    · rw [getD_set_self_oob g row ((g.getD row []).set col c) []
        (Nat.le_of_not_lt hlt)]
  · rw [getD_set_ne_idx g row r2 ((g.getD row []).set col c) [] hr]

/-- C10: `vacate` on a cell that does not hold the occupant returns `None`
with the grid (hence the occupant list) unchanged, for any direction argument
including the absent one — the same `None` a successful departure from the
grid (a present occupant, no direction) returns, so the two outcomes are
indistinguishable by return value. -/
theorem vacate_missing_occupant (g : List (List GridCell)) (row col occ : Nat)
    (dir : Option (Fin 4))
    (hno : occ ∉ (cellAt g row col).occupants)
    (g2 : List (List GridCell)) (row2 col2 occ2 : Nat)
    (hyes : occ2 ∈ (cellAt g2 row2 col2).occupants) :
    gridVacate g row col occ dir = (g, none)
    ∧ (gridVacate g2 row2 col2 occ2 none).2 = none := by
  constructor
  · simp only [gridVacate]
    rw [if_pos hno]
  · simp only [gridVacate]
    rw [if_neg (not_not_intro hyes)]

/-- Witness for C10: a 1×1 grid, an absent occupant 9 queried at cell (0,0)
with direction East, and the present occupant 4 departing with no direction. -/
theorem vacate_missing_occupant_witness :
    9 ∉ (cellAt c10grid 0 0).occupants ∧
    4 ∈ (cellAt c10grid 0 0).occupants ∧
    (gridVacate c10grid 0 0 9 (some 1) = (c10grid, none)
      ∧ (gridVacate c10grid 0 0 4 none).2 = none) :=
  ⟨by decide, by decide,
    vacate_missing_occupant c10grid 0 0 9 (some 1) (by decide) c10grid 0 0 4
      (by decide)⟩

/-- C1: moving occupant `occ` out of the cell at `(row, col)` in direction
`d`, `vacate` either refuses (no neighbour in that direction, or the
neighbour is at capacity), leaving the occupant in its cell, or removes it
and hands it to the neighbour's `occupy`; afterwards the occupant is present
in exactly one of the two cells, never both and never neither, and the
returned cell is the one holding it.  The hypotheses state facts that hold
for every grid built by `GridWorld.__init__`: neighbour references are in
range, distinct from the referencing cell, and hold adjacent coordinates,
and the occupant is listed once in its cell and not in the neighbour. -/
theorem vacate_atomic (g : List (List GridCell)) (row col occ : Nat) (d : Fin 4)
    (hrow : row < g.length) (hcol : col < (g.getD row []).length)
    (hmem : occ ∈ (cellAt g row col).occupants)
    (hcount : (cellAt g row col).occupants.count occ = 1)
    (hnb : ∀ r c, (cellAt g row col).neighbours.getD d.val none = some (r, c) →
      r < g.length ∧ c < (g.getD r []).length ∧ (r, c) ≠ (row, col) ∧
      occ ∉ (cellAt g r c).occupants ∧
      ((cellAt g row col).x - (cellAt g r c).x).natAbs ≤ 1 ∧
      ((cellAt g row col).y - (cellAt g r c).y).natAbs ≤ 1) :
    (∃ rr cc, (gridVacate g row col occ (some d)).2 = some (rr, cc) ∧
      occ ∈ (cellAt (gridVacate g row col occ (some d)).1 rr cc).occupants)
    ∧ (∀ r c, (cellAt g row col).neighbours.getD d.val none = some (r, c) →
        (occ ∈ (cellAt (gridVacate g row col occ (some d)).1 row col).occupants ↔
          occ ∉ (cellAt (gridVacate g row col occ (some d)).1 r c).occupants))
    ∧ ((cellAt g row col).neighbours.getD d.val none = none →
        gridVacate g row col occ (some d) = (g, some (row, col))) := by
  have hpmem := not_not_intro hmem
  cases hslot : (cellAt g row col).neighbours.getD d.val none with
  | none =>
    have hEq : gridVacate g row col occ (some d) = (g, some (row, col)) := by
      simp only [gridVacate, hslot]
      rw [if_neg hpmem]
    refine ⟨⟨row, col, ?_, ?_⟩, ?_, ?_⟩
    · rw [hEq]
    · rw [hEq]
      exact hmem
    · intro r c hrc
      exact Option.noConfusion hrc
    · intro _
      exact hEq
  | some rc =>
    obtain ⟨r, c⟩ := rc
    obtain ⟨hr, hc, hne, hnocc, hax, hay⟩ := hnb r c hslot
    by_cases hocc : (cellAt g r c).occupied
    · have hEq : gridVacate g row col occ (some d) = (g, some (row, col)) := by
        simp only [gridVacate, hslot]
        rw [if_neg hpmem, if_pos hocc]
      refine ⟨⟨row, col, ?_, ?_⟩, ?_, ?_⟩
      · rw [hEq]
      · rw [hEq]
        exact hmem
      · intro r2 c2 hrc
        have h2 := Option.some.inj hrc
        obtain ⟨rfl, rfl⟩ : r = r2 ∧ c = c2 :=
          ⟨congrArg Prod.fst h2, congrArg Prod.snd h2⟩
        rw [hEq]
        exact iff_of_true hmem hnocc
      · intro hnone
        exact Option.noConfusion hnone
    · have hlen : ¬ (cellAt g r c).maxOccupants < (cellAt g r c).occupants.length := by
        have h2 : ¬ (cellAt g r c).maxOccupants ≤ (cellAt g r c).occupants.length := by
          simpa [GridCell.occupied] using hocc
        omega
      have hadj : ¬ (1 < ((cellAt g row col).x - (cellAt g r c).x).natAbs ∨
          1 < ((cellAt g row col).y - (cellAt g r c).y).natAbs) := by
        push_neg
        exact ⟨hax, hay⟩
      have hEq : gridVacate g row col occ (some d) =
          (setCell (setCell g row col
              { cellAt g row col with
                  occupants := (cellAt g row col).occupants.erase occ })
            r c
            { cellAt g r c with
                occupants := (cellAt g r c).occupants ++ [occ] },
            some (r, c)) := by
        simp only [gridVacate, hslot, GridCell.occupy]
        rw [if_neg hpmem, if_neg hocc, if_neg hadj, if_neg hlen]
      have hrB : r < (setCell g row col
          { cellAt g row col with
              occupants := (cellAt g row col).occupants.erase occ }).length := by
        rw [length_setCell]
        exact hr
      have hcB : c < ((setCell g row col
          { cellAt g row col with
              occupants := (cellAt g row col).occupants.erase occ }).getD r []).length := by
        rw [getD_setCell_length]
        exact hc
      have hfinN : cellAt (setCell (setCell g row col
          { cellAt g row col with
              occupants := (cellAt g row col).occupants.erase occ })
            r c
            { cellAt g r c with
                occupants := (cellAt g r c).occupants ++ [occ] }) r c =
          { cellAt g r c with
              occupants := (cellAt g r c).occupants ++ [occ] } :=
        cellAt_setCell_same _ r c _ hrB hcB
      have hfinP : cellAt (setCell (setCell g row col
          { cellAt g row col with
              occupants := (cellAt g row col).occupants.erase occ })
            r c
            { cellAt g r c with
                occupants := (cellAt g r c).occupants ++ [occ] }) row col =
          { cellAt g row col with
              occupants := (cellAt g row col).occupants.erase occ } := by
        rw [cellAt_setCell_ne _ r c row col _ (Ne.symm hne)]
        exact cellAt_setCell_same _ row col _ hrow hcol
      have hgone : occ ∉ (cellAt g row col).occupants.erase occ := by
        have h3 := List.count_erase_self occ (cellAt g row col).occupants
        rw [hcount] at h3
        exact List.count_eq_zero.mp h3
      refine ⟨⟨r, c, ?_, ?_⟩, ?_, ?_⟩
      · rw [hEq]
      · rw [hEq]
        show occ ∈ (cellAt _ r c).occupants
        rw [hfinN]
        simp
      · intro r2 c2 hrc
        have h2 := Option.some.inj hrc
        obtain ⟨rfl, rfl⟩ : r = r2 ∧ c = c2 :=
          ⟨congrArg Prod.fst h2, congrArg Prod.snd h2⟩
        rw [hEq]
        show occ ∈ (cellAt _ row col).occupants ↔ occ ∉ (cellAt _ r c).occupants
        rw [hfinN, hfinP]
        exact iff_of_false hgone (not_not_intro (by simp))
      · intro hnone
        exact Option.noConfusion hnone

/-- Witness for C1: occupant 7 vacates cell (0,0) eastwards into the free
adjacent cell of `c1grid`. -/
theorem vacate_atomic_witness :
    7 ∈ (cellAt c1grid 0 0).occupants ∧
    ((∃ rr cc, (gridVacate c1grid 0 0 7 (some 1)).2 = some (rr, cc) ∧
      7 ∈ (cellAt (gridVacate c1grid 0 0 7 (some 1)).1 rr cc).occupants)
    ∧ (∀ r c, (cellAt c1grid 0 0).neighbours.getD (1 : Fin 4).val none = some (r, c) →
        (7 ∈ (cellAt (gridVacate c1grid 0 0 7 (some 1)).1 0 0).occupants ↔
          7 ∉ (cellAt (gridVacate c1grid 0 0 7 (some 1)).1 r c).occupants))
    ∧ ((cellAt c1grid 0 0).neighbours.getD (1 : Fin 4).val none = none →
        gridVacate c1grid 0 0 7 (some 1) = (c1grid, some (0, 0)))) :=
  ⟨by decide,
    vacate_atomic c1grid 0 0 7 1 (by decide) (by decide) (by decide) (by decide)
      (by
        intro r c hx
        have hx2 : (some ((0 : Nat), (1 : Nat)) : Option (Nat × Nat)) = some (r, c) := hx
        have h2 := Option.some.inj hx2
        obtain ⟨rfl, rfl⟩ : 0 = r ∧ 1 = c :=
          ⟨congrArg Prod.fst h2, congrArg Prod.snd h2⟩
        exact ⟨by decide, by decide, by decide, by decide, by decide, by decide⟩)⟩

lemma builtNeighbours_eq (h w : Nat) (pts : Nat × Nat → Nat) (row col : Nat) :
    builtNeighbours h w pts row col =
      [if 0 < row ∧ 0 < pts (col, row - 1) then some (row - 1, col) else none,
       if col < w - 1 ∧ 0 < pts (col + 1, row) then some (row, col + 1) else none,
       if row < h - 1 ∧ 0 < pts (col, row + 1) then some (row + 1, col) else none,
       if 0 < col ∧ 0 < pts (col - 1, row) then some (row, col - 1) else none] := by
  unfold builtNeighbours
  split_ifs <;> rfl

lemma getD_map_range {α : Type} (n i : Nat) (f : Nat → α) (d : α) (h : i < n) :
    ((List.range n).map f).getD i d = f i := by
  rw [List.getD_eq_getElem?_getD, List.getElem?_map, List.getElem?_range h]
  rfl

lemma cellAt_buildGrid (h w : Nat) (pts : Nat × Nat → Nat) (row col : Nat)
    (hrow : row < h) (hcol : col < w) :
    cellAt (buildGrid h w pts) row col =
      { x := (col : Int), y := (row : Int), label := none,
        maxOccupants := pts (col, row), occupants := [], parent := 0,
        neighbours := builtNeighbours h w pts row col } := by
  unfold cellAt buildGrid
  rw [getD_map_range h row _ [] hrow]
  rw [getD_map_range w col _ defaultCell hcol]

/-- C7: in every grid built by `GridWorld.__init__`, every cell's neighbour
list has exactly 4 slots, every neighbour reference points at a cell of
positive capacity, and adjacency is symmetric in position: an edge from
`(row, col)` in direction `d` is mirrored by an edge back in the opposite
direction whenever the source cell's capacity is also positive. -/
theorem grid_topology (h w : Nat) (pts : Nat × Nat → Nat) (row col r2 c2 : Nat)
    (d : Fin 4) (hrow : row < h) (hcol : col < w)
    (hslot : (cellAt (buildGrid h w pts) row col).neighbours.getD d.val none =
      some (r2, c2)) :
    (∀ rr cc, rr < h → cc < w →
      (cellAt (buildGrid h w pts) rr cc).neighbours.length = 4)
    ∧ 0 < (cellAt (buildGrid h w pts) r2 c2).maxOccupants
    ∧ (0 < pts (col, row) →
        (cellAt (buildGrid h w pts) r2 c2).neighbours.getD
          (oppositeDirection d).val none = some (row, col)) := by
  have hlen : ∀ rr cc, rr < h → cc < w →
      (cellAt (buildGrid h w pts) rr cc).neighbours.length = 4 := by
    intro rr cc hrr hcc
    rw [cellAt_buildGrid h w pts rr cc hrr hcc]
    show (builtNeighbours h w pts rr cc).length = 4
    rw [builtNeighbours_eq]
    rfl
  rw [cellAt_buildGrid h w pts row col hrow hcol] at hslot
  fin_cases d
  · -- north
    have hslot2 : (if 0 < row ∧ 0 < pts (col, row - 1)
        then some (row - 1, col) else none) = some (r2, c2) := by
      have h0 := hslot
      rw [builtNeighbours_eq] at h0
      exact h0
    by_cases hcond : 0 < row ∧ 0 < pts (col, row - 1)
    · rw [if_pos hcond] at hslot2
      obtain ⟨hrpos, hcap2⟩ := hcond
      have h2 := Option.some.inj hslot2
      obtain ⟨rfl, rfl⟩ : row - 1 = r2 ∧ col = c2 :=
        ⟨congrArg Prod.fst h2, congrArg Prod.snd h2⟩
      have hr2 : row - 1 < h := by omega
      refine ⟨hlen, ?_, ?_⟩
      · rw [cellAt_buildGrid h w pts (row - 1) col hr2 hcol]
        exact hcap2
      · intro hcap
        rw [cellAt_buildGrid h w pts (row - 1) col hr2 hcol]
        show (builtNeighbours h w pts (row - 1) col).getD 2 none = some (row, col)
        rw [builtNeighbours_eq]
        show (if row - 1 < h - 1 ∧ 0 < pts (col, row - 1 + 1)
            then some (row - 1 + 1, col) else none) = some (row, col)
        have hplus : row - 1 + 1 = row := by omega
        rw [hplus, if_pos ⟨by omega, hcap⟩]
    · rw [if_neg hcond] at hslot2
      exact Option.noConfusion hslot2
  · -- east
    have hslot2 : (if col < w - 1 ∧ 0 < pts (col + 1, row)
        then some (row, col + 1) else none) = some (r2, c2) := by
      have h0 := hslot
      rw [builtNeighbours_eq] at h0
      exact h0
    by_cases hcond : col < w - 1 ∧ 0 < pts (col + 1, row)
    · rw [if_pos hcond] at hslot2
      obtain ⟨hclt, hcap2⟩ := hcond
      have h2 := Option.some.inj hslot2
      obtain ⟨rfl, rfl⟩ : row = r2 ∧ col + 1 = c2 :=
        ⟨congrArg Prod.fst h2, congrArg Prod.snd h2⟩
      have hc2 : col + 1 < w := by omega
      refine ⟨hlen, ?_, ?_⟩
      · rw [cellAt_buildGrid h w pts row (col + 1) hrow hc2]
        exact hcap2
      · intro hcap
        rw [cellAt_buildGrid h w pts row (col + 1) hrow hc2]
        show (builtNeighbours h w pts row (col + 1)).getD 3 none = some (row, col)
        rw [builtNeighbours_eq]
        show (if 0 < col + 1 ∧ 0 < pts (col + 1 - 1, row)
            then some (row, col + 1 - 1) else none) = some (row, col)
        have hplus : col + 1 - 1 = col := by omega
        rw [hplus, if_pos ⟨by omega, hcap⟩]
    · rw [if_neg hcond] at hslot2
      exact Option.noConfusion hslot2
  · -- south
    have hslot2 : (if row < h - 1 ∧ 0 < pts (col, row + 1)
        then some (row + 1, col) else none) = some (r2, c2) := by
      have h0 := hslot
      rw [builtNeighbours_eq] at h0
      exact h0
    by_cases hcond : row < h - 1 ∧ 0 < pts (col, row + 1)
    · rw [if_pos hcond] at hslot2
      obtain ⟨hrlt, hcap2⟩ := hcond
      have h2 := Option.some.inj hslot2
      obtain ⟨rfl, rfl⟩ : row + 1 = r2 ∧ col = c2 :=
        ⟨congrArg Prod.fst h2, congrArg Prod.snd h2⟩
      have hr2 : row + 1 < h := by omega
      refine ⟨hlen, ?_, ?_⟩
      · rw [cellAt_buildGrid h w pts (row + 1) col hr2 hcol]
        exact hcap2
      · intro hcap
        rw [cellAt_buildGrid h w pts (row + 1) col hr2 hcol]
        show (builtNeighbours h w pts (row + 1) col).getD 0 none = some (row, col)
        rw [builtNeighbours_eq]
        show (if 0 < row + 1 ∧ 0 < pts (col, row + 1 - 1)
            then some (row + 1 - 1, col) else none) = some (row, col)
        have hplus : row + 1 - 1 = row := by omega
        rw [hplus, if_pos ⟨by omega, hcap⟩]
    · rw [if_neg hcond] at hslot2
      exact Option.noConfusion hslot2
  · -- west
    have hslot2 : (if 0 < col ∧ 0 < pts (col - 1, row)
        then some (row, col - 1) else none) = some (r2, c2) := by
      have h0 := hslot
      rw [builtNeighbours_eq] at h0
      exact h0
    by_cases hcond : 0 < col ∧ 0 < pts (col - 1, row)
    · rw [if_pos hcond] at hslot2
      obtain ⟨hcpos, hcap2⟩ := hcond
      have h2 := Option.some.inj hslot2
      obtain ⟨rfl, rfl⟩ : row = r2 ∧ col - 1 = c2 :=
        ⟨congrArg Prod.fst h2, congrArg Prod.snd h2⟩
      have hc2 : col - 1 < w := by omega
      refine ⟨hlen, ?_, ?_⟩
      · rw [cellAt_buildGrid h w pts row (col - 1) hrow hc2]
        exact hcap2
      · intro hcap
        rw [cellAt_buildGrid h w pts row (col - 1) hrow hc2]
        show (builtNeighbours h w pts row (col - 1)).getD 1 none = some (row, col)
        rw [builtNeighbours_eq]
        show (if col - 1 < w - 1 ∧ 0 < pts (col - 1 + 1, row)
            then some (row, col - 1 + 1) else none) = some (row, col)
        have hplus : col - 1 + 1 = col := by omega
        rw [hplus, if_pos ⟨by omega, hcap⟩]
    · rw [if_neg hcond] at hslot2
      exact Option.noConfusion hslot2

/-- Witness for C7 on a 2×2 all-capacity-1 built grid: the east edge of cell
(0,0) exists, points at the positive-capacity cell (0,1), and is mirrored by
a west edge back. -/
theorem grid_topology_witness :
    (cellAt (buildGrid 2 2 (fun _ => 1)) 0 0).neighbours.getD (1 : Fin 4).val
      none = some (0, 1) ∧
    ((∀ rr cc, rr < 2 → cc < 2 →
        (cellAt (buildGrid 2 2 (fun _ => 1)) rr cc).neighbours.length = 4)
      ∧ 0 < (cellAt (buildGrid 2 2 (fun _ => 1)) 0 1).maxOccupants
      ∧ ((0 : Nat) < 1 →
          (cellAt (buildGrid 2 2 (fun _ => 1)) 0 1).neighbours.getD
            (oppositeDirection 1).val none = some (0, 0))) :=
  ⟨by decide,
    grid_topology 2 2 (fun _ => 1) 0 0 0 1 1 (by decide) (by decide) (by decide)⟩

/-- C5: a registered agent proposing a move whose destination falls outside
the grid bounds observes its current cell unchanged: the world either
rejects the move at the bounds check, or — where the source's swapped
height/width comparison misses the rejection — `vacate` finds no neighbour
edge in that direction and returns the cell itself; the grid is unchanged,
and feeding the observation back through `actionResult` leaves the agent's
believed position unchanged. -/
theorem applyAction_out_of_bounds (h w : Nat) (pts : Nat × Nat → Nat)
    (g : List (List GridCell)) (agents : List (Nat × Int × Int))
    (ag : GridAgentState) (d : Fin 4)
    (hg : builtTopology h w pts g)
    (hax : 0 ≤ ag.x) (haxw : ag.x < (w : Int))
    (hay : 0 ≤ ag.y) (hayh : ag.y < (h : Int))
    (hmem : ag.objectID ∈ (cellAt g ag.y.toNat ag.x.toNat).occupants)
    (hact : ag.currentAction =
      { agent := ag.objectID, actionCode := 0, actionDirection := d,
        actedUpon := none, x := ag.x, y := ag.y })
    (hoob : (if d.val = 3 then ag.x - 1 else if d.val = 1 then ag.x + 1 else ag.x) < 0
      ∨ (if d.val = 2 then ag.y + 1 else if d.val = 0 then ag.y - 1 else ag.y) < 0
      ∨ (w : Int) ≤ (if d.val = 3 then ag.x - 1 else if d.val = 1 then ag.x + 1 else ag.x)
      ∨ (h : Int) ≤ (if d.val = 2 then ag.y + 1 else if d.val = 0 then ag.y - 1 else ag.y)) :
    (∃ agents2, applyAction ⟨g, agents⟩ ag.currentAction =
      some (⟨g, agents2⟩, some (cellAt g ag.y.toNat ag.x.toNat)))
    ∧ ag.actionResult (some (cellAt g ag.y.toNat ag.x.toNat)) = some ag := by
  obtain ⟨hgl, hgw, hcells⟩ := hg
  have hrowh : ag.y.toNat < h := by omega
  have hcolw : ag.x.toNat < w := by omega
  obtain ⟨hx0, hy0, hnb0⟩ := hcells ag.y.toNat hrowh ag.x.toNat hcolw
  have hres : ag.actionResult (some (cellAt g ag.y.toNat ag.x.toNat)) = some ag := by
    simp only [GridAgentState.actionResult, hact]
    rw [if_pos trivial]
    rw [setattrX_def, setattrY_def, hx0, hy0, Int.toNat_of_nonneg hax,
      Int.toNat_of_nonneg hay]
    rw [if_pos (le_refl (0 : Int))]
  refine ⟨?_, hres⟩
  rw [hact]
  simp only [applyAction]
  rw [hgl]
  have hg0 : 0 < g.length := by omega
  have hgd0 : ((g.getD 0 []).length) = w := by
    rw [List.getD_eq_getElem?_getD, List.getElem?_eq_getElem hg0]
    exact hgw _ (List.getElem_mem hg0)
  rw [hgd0]
  set dx := (if d.val = 3 then ag.x - 1 else if d.val = 1 then ag.x + 1 else ag.x)
    with hdx
  set dy := (if d.val = 2 then ag.y + 1 else if d.val = 0 then ag.y - 1 else ag.y)
    with hdy
  by_cases hbug : dx < 0 ∨ dy < 0 ∨ (h : Int) ≤ dx ∨ (w : Int) ≤ dy
  · rw [if_pos hbug]
    exact ⟨agents, rfl⟩
  · rw [if_neg hbug]
    push_neg at hbug
    obtain ⟨hb1, hb2, hb3, hb4⟩ := hbug
    have hslotnone : (cellAt g ag.y.toNat ag.x.toNat).neighbours.getD d.val
        none = none := by
      rw [hnb0, builtNeighbours_eq]
      fin_cases d
      · have hdxv : dx = ag.x := by rw [hdx]; rfl
        have hdyv : dy = ag.y - 1 := by rw [hdy]; rfl
        exfalso
        omega
      · have hdxv : dx = ag.x + 1 := by rw [hdx]; rfl
        have hdyv : dy = ag.y := by rw [hdy]; rfl
        have hlt : ¬ ag.x.toNat < w - 1 := by omega
        show (if ag.x.toNat < w - 1 ∧ 0 < pts (ag.x.toNat + 1, ag.y.toNat)
          then some (ag.y.toNat, ag.x.toNat + 1) else none) = none
        exact if_neg (fun hcon => hlt hcon.1)
      · have hdxv : dx = ag.x := by rw [hdx]; rfl
        have hdyv : dy = ag.y + 1 := by rw [hdy]; rfl
        have hlt : ¬ ag.y.toNat < h - 1 := by omega
        show (if ag.y.toNat < h - 1 ∧ 0 < pts (ag.x.toNat, ag.y.toNat + 1)
          then some (ag.y.toNat + 1, ag.x.toNat) else none) = none
        exact if_neg (fun hcon => hlt hcon.1)
      · have hdxv : dx = ag.x - 1 := by rw [hdx]; rfl
        have hdyv : dy = ag.y := by rw [hdy]; rfl
        exfalso
        omega
    have hvac : gridVacate g ag.y.toNat ag.x.toNat ag.objectID (some d) =
        (g, some (ag.y.toNat, ag.x.toNat)) := by
      simp only [gridVacate, hslotnone]
      rw [if_neg (not_not_intro hmem)]
    rw [hvac]
    exact ⟨updateAgentPos agents ag.objectID (cellAt g ag.y.toNat ag.x.toNat).x
      (cellAt g ag.y.toNat ag.x.toNat).y, rfl⟩

/-- Witness for C5: agent 7 at (0,0) of the 5×5 grid `c5grid` proposes a
move west; the destination (-1, 0) is out of bounds, the observation is the
unchanged cell (0,0), and the believed position stays (0,0). -/
theorem applyAction_out_of_bounds_witness :
    7 ∈ (cellAt c5grid 0 0).occupants ∧
    ((∃ agents2, applyAction ⟨c5grid, [(7, 0, 0)]⟩ c5agent.currentAction =
        some (⟨c5grid, agents2⟩, some (cellAt c5grid 0 0))) ∧
      c5agent.actionResult (some (cellAt c5grid 0 0)) = some c5agent) :=
  ⟨by decide,
    applyAction_out_of_bounds 5 5 c5pts c5grid [(7, 0, 0)] c5agent 3
      (by unfold builtTopology; decide) (by decide) (by decide) (by decide)
      (by decide) (by decide) rfl (by decide)⟩
